import Mathlib

/-!
Shallow embedding of the background sync core of `src/firestore.js`
(`BackgroundSyncQueue`, the sync facade `immediateSync`, and the
Firestore usage tracker), together with theorems settling the spec
claims about it.

Modelling conventions:
- JavaScript machine time (`Date.now()`) is a `Nat` of epoch milliseconds
  passed explicitly.
- The Firestore handle / current user globals (`firebaseDB`, `currentUser`)
  and the two failure sources (a `docRef` construction throwing inside the
  per-item loop, and `firestoreBatch.commit()` rejecting) are environment
  parameters: `cfail` says which items fail to construct, `commitFail`
  says which batch commits reject.
- The asynchronous drain loop of `processQueue` is run atomically with a
  fuel bound (the source loop has no bound; fuel only limits how many
  batch iterations we unfold).
- Document payloads are abstracted to a `Nat`; the server-assigned
  timestamps stamped by the adapter are not modelled (no claim inspects
  them).
-/

namespace SyncCore

/-- Field `retryAttempts` of `BackgroundSyncQueue` (source line 17). -/
def retryAttempts : Nat := 3

/-- Field `batchSize` of `BackgroundSyncQueue` (source line 15). -/
def batchSize : Nat := 50

/-- A queued mutation, as built by `BackgroundSyncQueue.enqueue`
(source lines 27-34): operation name, collection, payload, document id,
enqueue timestamp and attempt counter. -/
structure Item where
  operation : String
  collection : String
  data : Nat
  id : String
  timestamp : Nat
  attempts : Nat
deriving Repr, DecidableEq

/-- The kind of a remote write: `set(..., \x7bmerge: true\x7d)` or `delete`. -/
inductive WriteKind where
  | upsertMerge
  | del
deriving Repr, DecidableEq

/-- One operation of an atomic Firestore batch, addressed at
`users/{userId}/{collection}/{docId}` (source lines 85-89). -/
structure RemoteOp where
  userId : String
  collection : String
  docId : String
  kind : WriteKind
  payload : Option Nat
deriving Repr, DecidableEq

/-- The `switch (item.operation)` of `processBatch` (source lines 91-106):
`create` and `update` become a merge upsert, `delete` a delete, and any
other operation string falls through the switch producing no operation. -/
def mkRemoteOp (uid : String) (it : Item) : Option RemoteOp :=
  match it.operation with
  | "create" =>
      some { userId := uid, collection := it.collection, docId := it.id,
             kind := WriteKind.upsertMerge, payload := some it.data }
  | "update" =>
      some { userId := uid, collection := it.collection, docId := it.id,
             kind := WriteKind.upsertMerge, payload := some it.data }
  | "delete" =>
      some { userId := uid, collection := it.collection, docId := it.id,
             kind := WriteKind.del, payload := none }
  | _ => none

/-- Increment of the `attempts` field of an item (`item.attempts++` and the
spread `\x7b ...item, attempts: item.attempts + 1 \x7d` of the source). -/
def bumpAttempts (it : Item) : Item :=
  { it with attempts := it.attempts + 1 }

/-- Mutable state of `BackgroundSyncQueue` plus an observation log:
`queue` and `processing` are the object's fields; `committed` records the
remote operations committed so far; `writes` mirrors the running count
reported to `trackFirestoreWrite`. -/
structure SyncState where
  queue : List Item
  processing : Bool
  committed : List RemoteOp
  writes : Nat
deriving Repr, DecidableEq

/-- Environment of a drain: the session globals (`firebaseDB` non-null,
`currentUser` with its id) and the failure oracles. `cfail it = true`
means the `docRef` construction for `it` throws; `commitFail k = true`
means the `k`-th batch commit of this drain rejects. -/
structure SyncEnv where
  firebaseDB : Bool
  currentUser : Option String
  cfail : Item → Bool
  commitFail : Nat → Bool

/-- The per-item loop of `processBatch` (source lines 83-116). Returns
`(ops, requeued, updatedBatch)`: the operations added to the atomic
batch, the items pushed back onto the queue by the construction-retry
path, and the batch as left after the loop (JavaScript mutates the items
in place, so an item whose construction failed below the retry cap
appears in the batch with its incremented counter). -/
def processItems (cfail : Item → Bool) (uid : String) :
    List Item → List RemoteOp × List Item × List Item
  | [] => ([], [], [])
  | it :: rest =>
    let r := processItems cfail uid rest
    if cfail it then
      if it.attempts < retryAttempts then
        (r.1, bumpAttempts it :: r.2.1, bumpAttempts it :: r.2.2)
      else
        (r.1, r.2.1, it :: r.2.2)
    else
      match mkRemoteOp uid it with
      | some op => (op :: r.1, r.2.1, it :: r.2.2)
      | none => (r.1, r.2.1, it :: r.2.2)

/-- `BackgroundSyncQueue.processBatch` (source lines 73-133). With the
session absent the batch is pushed back onto the queue (a tail push,
`this.queue.push(...batch)`). Otherwise the items are folded into one
atomic request; if at least one operation was constructed the request is
committed, and on rejection every item of the (mutated) batch is pushed
onto the queue tail with `attempts` incremented. `k` is the index of this
batch within the drain, consumed by the commit-failure oracle. -/
def processBatch (env : SyncEnv) (k : Nat) (batch : List Item)
    (s : SyncState) : SyncState :=
  match env.firebaseDB, env.currentUser with
  | true, some uid =>
    let r := processItems env.cfail uid batch
    let s1 : SyncState := { s with queue := s.queue ++ r.2.1 }
    if 0 < r.1.length then
      if env.commitFail k then
        { s1 with queue := s1.queue ++ r.2.2.map bumpAttempts }
      else
        { s1 with committed := s1.committed ++ r.1,
                  writes := s1.writes + r.1.length }
    else s1
  | _, _ => { s with queue := s.queue ++ batch }

/-- The `while (this.queue.length > 0)` loop of `processQueue` (source
lines 51-62), unfolded up to `fuel` iterations; `k` numbers the batches
for the commit oracle. Each iteration splices up to `batchSize` items off
the queue head and hands them to `processBatch` (the throttle sleep has
no observable effect in the model). -/
def drainLoop (env : SyncEnv) : Nat → Nat → SyncState → SyncState
  | 0, _, s => s
  | fuel + 1, k, s =>
    if s.queue = [] then s
    else
      let batch := s.queue.take batchSize
      let s1 := processBatch env k batch { s with queue := s.queue.drop batchSize }
      drainLoop env fuel (k + 1) s1

/-- `BackgroundSyncQueue.processQueue` (source lines 45-68): returns at
once if already processing or the queue is empty; otherwise sets
`processing`, runs the drain loop, and clears `processing` in the
`finally`. -/
def processQueue (env : SyncEnv) (fuel : Nat) (s : SyncState) : SyncState :=
  if s.processing ∨ s.queue = [] then s
  else
    let s1 := drainLoop env fuel 0 { s with processing := true }
    { s1 with processing := false }

/-- The item built by `BackgroundSyncQueue.enqueue` (source lines 27-34);
`freshId` stands for the `generateId()` result used when no id is
supplied. -/
def mkItem (operation collection : String) (data : Nat)
    (suppliedId : Option String) (freshId : String) (now : Nat) : Item :=
  { operation := operation, collection := collection, data := data,
    id := suppliedId.getD freshId, timestamp := now, attempts := 0 }

/-- `BackgroundSyncQueue.enqueue` (source lines 26-40): pushes the new
item onto the queue tail and starts `processQueue` only when not already
processing. -/
def enqueue (env : SyncEnv) (fuel : Nat) (operation collection : String)
    (data : Nat) (suppliedId : Option String) (freshId : String) (now : Nat)
    (s : SyncState) : SyncState :=
  let s1 : SyncState :=
    { s with queue := s.queue ++ [mkItem operation collection data suppliedId freshId now] }
  if s1.processing then s1 else processQueue env fuel s1

/-- The snapshot returned by `BackgroundSyncQueue.getStatus` (source
lines 152-158). -/
structure QueueStatus where
  queueLength : Nat
  processing : Bool
  pending : Nat
deriving Repr, DecidableEq

/-- `BackgroundSyncQueue.getStatus` (source lines 152-158): both
`queueLength` and `pending` are read off `this.queue.length`. -/
def getStatus (s : SyncState) : QueueStatus :=
  { queueLength := s.queue.length, processing := s.processing,
    pending := s.queue.length }

/-- `BackgroundSyncQueue.clear` (source lines 163-166). -/
def clear (s : SyncState) : SyncState :=
  { s with queue := [], processing := false }

/-- An operation string handled by the `switch` of `processBatch`. -/
def validOp (it : Item) : Prop :=
  it.operation = "create" ∨ it.operation = "update" ∨ it.operation = "delete"

instance (it : Item) : Decidable (validOp it) := by
  unfold validOp; infer_instance

/-- Total form of `mkRemoteOp` on valid operations, used to state what a
successful drain commits. -/
def remoteOpOf (uid : String) (it : Item) : RemoteOp :=
  if it.operation = "delete" then
    { userId := uid, collection := it.collection, docId := it.id,
      kind := WriteKind.del, payload := none }
  else
    { userId := uid, collection := it.collection, docId := it.id,
      kind := WriteKind.upsertMerge, payload := some it.data }

/-! Usage tracker (`firestoreStats`, source lines 265-484). -/

/-- A `(timestamp, reads, writes)` sample of the rolling history. -/
structure HistSample where
  t : Nat
  reads : Nat
  writes : Nat
deriving Repr, DecidableEq

/-- The `firestoreStats` record (source lines 305-310), also the layout
persisted to `localStorage` under the key `firestoreStats`. -/
structure FirestoreStats where
  reads : Nat
  writes : Nat
  history : List HistSample
  lastReset : Nat
deriving Repr, DecidableEq

/-- One hour of epoch milliseconds (`1000 * 60 * 60`, source line 317). -/
def hourMs : Nat := 1000 * 60 * 60

/-- The data arrays of `firestoreUsageChart` (labels and the two
datasets, source lines 361-414). -/
structure ChartData where
  labels : List Nat
  readsData : List Nat
  writesData : List Nat
deriving Repr, DecidableEq

/-- World of the tracker: the in-memory `firestoreStats`, the
`localStorage` slot written by `saveFirestoreStats`, and the chart
(`none` until `initFirestoreUsageChart` ran). -/
structure TrackerWorld where
  stats : FirestoreStats
  saved : Option FirestoreStats
  chart : Option ChartData
deriving Repr, DecidableEq

/-- `saveFirestoreStats` (source lines 297-303): persists the current
stats record wholesale. -/
def saveFirestoreStats (w : TrackerWorld) : TrackerWorld :=
  { w with saved := some w.stats }

/-- `updateFirestoreChart` (source lines 450-469): returns if no chart;
otherwise pushes a `(time, reads, writes)` point and, when more than 10
points are held, shifts the oldest one off each array. -/
def updateFirestoreChart (now : Nat) (w : TrackerWorld) : TrackerWorld :=
  match w.chart with
  | none => w
  | some c =>
    let c1 : ChartData :=
      { labels := c.labels ++ [now],
        readsData := c.readsData ++ [w.stats.reads],
        writesData := c.writesData ++ [w.stats.writes] }
    let c2 : ChartData :=
      if 10 < c1.labels.length then
        { labels := c1.labels.drop 1, readsData := c1.readsData.drop 1,
          writesData := c1.writesData.drop 1 }
      else c1
    { w with chart := some c2 }

/-- `updateFirestoreDisplay` (source lines 436-447): refreshes the DOM
counters (not modelled) and touches the chart only when the total
operation count is a multiple of 10. -/
def updateFirestoreDisplay (now : Nat) (w : TrackerWorld) : TrackerWorld :=
  if (w.stats.reads + w.stats.writes) % 10 = 0 then updateFirestoreChart now w
  else w

/-- The chart-clearing block shared by the reset paths (source lines
329-334): empties labels and both datasets when a chart exists. -/
def clearChartData (w : TrackerWorld) : TrackerWorld :=
  match w.chart with
  | none => w
  | some _ =>
    { w with chart := some { labels := [], readsData := [], writesData := [] } }

/-- `checkAndAutoResetFirestoreStats` (source lines 315-336): when at
least 24 wall-clock hours have elapsed since `lastReset` (the float
comparison `(now - lastReset) / 3600000 >= 24` is exact on these
integers), zeroes the counters and history, stamps `lastReset`, persists,
refreshes the display and clears the chart. -/
def checkAndAutoResetFirestoreStats (now : Nat) (w : TrackerWorld) : TrackerWorld :=
  if 24 * hourMs ≤ now - w.stats.lastReset then
    let w1 : TrackerWorld :=
      { w with stats := { reads := 0, writes := 0, history := [], lastReset := now } }
    clearChartData (updateFirestoreDisplay now (saveFirestoreStats w1))
  else w

/-- `trackFirestoreRead` (source lines 418-424): auto-reset check, then
increment, persist, display. -/
def trackFirestoreRead (now count : Nat) (w : TrackerWorld) : TrackerWorld :=
  let w1 := checkAndAutoResetFirestoreStats now w
  let w2 : TrackerWorld :=
    { w1 with stats := { w1.stats with reads := w1.stats.reads + count } }
  updateFirestoreDisplay now (saveFirestoreStats w2)

/-- `trackFirestoreWrite` (source lines 427-433): auto-reset check, then
increment, persist, display. -/
def trackFirestoreWrite (now count : Nat) (w : TrackerWorld) : TrackerWorld :=
  let w1 := checkAndAutoResetFirestoreStats now w
  let w2 : TrackerWorld :=
    { w1 with stats := { w1.stats with writes := w1.stats.writes + count } }
  updateFirestoreDisplay now (saveFirestoreStats w2)

/-! Sync facade: `immediateSync` (source lines 203-243). -/

/-- Errors of the facade, per the spec taxonomy: `sessionError` models the
`throw new Error('User not logged in or Firebase not initialized')` of
line 205, `deliveryError` the rethrown adapter rejection of line 241. -/
inductive SyncError where
  | sessionError
  | deliveryError
deriving Repr, DecidableEq

/-- State visible to `immediateSync`: the usage-tracker world, the
background queue (to observe that the call bypasses and never touches
it), and the log of remote writes performed. -/
structure ImmState where
  tracker : TrackerWorld
  queue : List Item
  remote : List RemoteOp
deriving Repr, DecidableEq

/-- `immediateSync` (source lines 203-243): requires the session, derives
the document id (`data.id || Date.now().toString()`, with `freshId`
standing for the fallback), performs one direct upsert or delete, tracks
a single write on success, and rethrows the adapter's rejection on
failure. An operation string outside the switch resolves to `true`
without any write. `commitOk = false` means the single `docRef` call
rejects. -/
def immediateSync (fdb : Bool) (cu : Option String) (commitOk : Bool)
    (now : Nat) (collection : String) (data : Nat) (dataId : Option String)
    (freshId : String) (operation : String) (s : ImmState) :
    Except SyncError Bool × ImmState :=
  match fdb, cu with
  | true, some uid =>
    let docId := dataId.getD freshId
    match operation with
    | "create" =>
      if commitOk then
        let s1 : ImmState :=
          { s with remote := s.remote ++
              [{ userId := uid, collection := collection, docId := docId,
                 kind := WriteKind.upsertMerge, payload := some data }] }
        (Except.ok true, { s1 with tracker := trackFirestoreWrite now 1 s1.tracker })
      else (Except.error SyncError.deliveryError, s)
    | "update" =>
      if commitOk then
        let s1 : ImmState :=
          { s with remote := s.remote ++
              [{ userId := uid, collection := collection, docId := docId,
                 kind := WriteKind.upsertMerge, payload := some data }] }
        (Except.ok true, { s1 with tracker := trackFirestoreWrite now 1 s1.tracker })
      else (Except.error SyncError.deliveryError, s)
    | "delete" =>
      if commitOk then
        let s1 : ImmState :=
          { s with remote := s.remote ++
              [{ userId := uid, collection := collection, docId := docId,
                 kind := WriteKind.del, payload := none }] }
        (Except.ok true, { s1 with tracker := trackFirestoreWrite now 1 s1.tracker })
      else (Except.error SyncError.deliveryError, s)
    | _ => (Except.ok true, s)
  | _, _ => (Except.error SyncError.sessionError, s)

/-! Shared concrete inputs used by the witness theorems below. -/

/-- A session with user `u` and a failure-free adapter. -/
def happyEnv : SyncEnv :=
  { firebaseDB := true, currentUser := some "u",
    cfail := fun _ => false, commitFail := fun _ => false }

/-- A session whose batch commits always reject. -/
def commitFailEnv : SyncEnv :=
  { firebaseDB := true, currentUser := some "u",
    cfail := fun _ => false, commitFail := fun _ => true }

/-- No `currentUser`: the session precondition is absent. -/
def noSessionEnv : SyncEnv :=
  { firebaseDB := true, currentUser := none,
    cfail := fun _ => false, commitFail := fun _ => false }

/-- Construction of any item aimed at collection `bad` throws. -/
def badRefEnv : SyncEnv :=
  { firebaseDB := true, currentUser := some "u",
    cfail := fun it => it.collection = "bad", commitFail := fun _ => false }

/-- An idle empty queue state. -/
def idleState : SyncState :=
  { queue := [], processing := false, committed := [], writes := 0 }

/-- A fresh tracker world: zero counters, nothing persisted, no chart. -/
def tracker0 : TrackerWorld :=
  { stats := { reads := 0, writes := 0, history := [], lastReset := 0 },
    saved := none, chart := none }

/-- The tracker after recording 3 reads and 5 writes at time 0. -/
def c7world : TrackerWorld :=
  trackFirestoreWrite 0 5 (trackFirestoreRead 0 3 tracker0)

/-- A fresh facade state over `tracker0` with an empty queue. -/
def imm0 : ImmState := { tracker := tracker0, queue := [], remote := [] }

/-- A fresh tracker world whose chart has been initialized (empty
arrays). -/
def chartWorld0 : TrackerWorld :=
  { stats := { reads := 0, writes := 0, history := [], lastReset := 0 },
    saved := none, chart := some { labels := [], readsData := [], writesData := [] } }

/-- The tracker world after ten single reads recorded at time 0, starting
from `chartWorld0`. -/
def c9afterTen : TrackerWorld :=
  (List.range 10).foldl (fun w _ => trackFirestoreRead 0 1 w) chartWorld0

/-- A chart holds at most 10 aligned samples: the bounded rolling
history. -/
def chartDataOk (c : ChartData) : Prop :=
  c.labels.length ≤ 10 ∧ c.readsData.length = c.labels.length ∧
  c.writesData.length = c.labels.length

instance (c : ChartData) : Decidable (chartDataOk c) := by
  unfold chartDataOk
  infer_instance

/-- The chart of a tracker world, when present, is bounded and aligned. -/
def chartWellFormed (w : TrackerWorld) : Prop :=
  match w.chart with
  | none => True
  | some c => chartDataOk c

instance (w : TrackerWorld) : Decidable (chartWellFormed w) :=
  match hc : w.chart with
  | none => isTrue (by simp [chartWellFormed, hc])
  | some c => decidable_of_iff (chartDataOk c) (by simp [chartWellFormed, hc])

/-- Number of samples currently held by the chart. -/
def chartLen (w : TrackerWorld) : Nat :=
  match w.chart with
  | none => 0
  | some c => c.labels.length

/-- The 51-item queue used to refute C4's head-requeue wording. -/
def fiftyOneItems : List Item :=
  (List.range 51).map (fun i =>
    { operation := "update", collection := "c", data := i, id := "x",
      timestamp := 0, attempts := 0 })

/-- The three items of the C1 witness scenario. -/
def threeItems : List Item :=
  [{ operation := "create", collection := "invoices", data := 100,
     id := "a", timestamp := 0, attempts := 0 },
   { operation := "update", collection := "invoices", data := 200,
     id := "b", timestamp := 1, attempts := 0 },
   { operation := "delete", collection := "invoices", data := 0,
     id := "c", timestamp := 2, attempts := 0 }]

theorem mkRemoteOp_of_valid (uid : String) (it : Item) (h : validOp it) :
    mkRemoteOp uid it = some (remoteOpOf uid it) := by
  rcases h with h | h | h <;> simp [mkRemoteOp, remoteOpOf, h]

/-! Helper lemmas about the per-item loop and `processBatch`. -/

theorem processItems_all_ok (cfail : Item → Bool) (uid : String) :
    ∀ l : List Item, (∀ it ∈ l, cfail it = false ∧ validOp it) →
      processItems cfail uid l = (l.map (remoteOpOf uid), [], l) := by
  intro l
  induction l with
  | nil => intro _; simp [processItems]
  | cons it rest ih =>
    intro h
    have hit := h it (List.mem_cons_self _ _)
    have hr := ih (fun x hx => h x (List.mem_cons_of_mem _ hx))
    simp [processItems, hr, hit.1, mkRemoteOp_of_valid uid it hit.2]

theorem processBatch_noSession (env : SyncEnv) (k : Nat) (batch : List Item)
    (s : SyncState) (h : env.firebaseDB = false ∨ env.currentUser = none) :
    processBatch env k batch s = { s with queue := s.queue ++ batch } := by
  rcases h with h | h
  · cases hu : env.currentUser <;> simp [processBatch, h, hu]
  · cases hdb : env.firebaseDB <;> simp [processBatch, h, hdb]

theorem processBatch_success (env : SyncEnv) (k : Nat) (uid : String)
    (batch : List Item) (s : SyncState)
    (hdb : env.firebaseDB = true) (hu : env.currentUser = some uid)
    (hcf : env.commitFail k = false)
    (hb : ∀ it ∈ batch, env.cfail it = false ∧ validOp it) :
    processBatch env k batch s =
      { s with committed := s.committed ++ batch.map (remoteOpOf uid),
               writes := s.writes + batch.length } := by
  cases batch with
  | nil => simp [processBatch, hdb, hu, processItems]
  | cons b bs =>
    simp [processBatch, hdb, hu, processItems_all_ok env.cfail uid _ hb, hcf]

theorem processItems_ids (cfail : Item → Bool) (uid : String) :
    ∀ l : List Item,
      (∀ x ∈ (processItems cfail uid l).2.1, x.id ∈ l.map Item.id) ∧
      (∀ x ∈ (processItems cfail uid l).2.2, x.id ∈ l.map Item.id) := by
  intro l
  induction l with
  | nil => simp [processItems]
  | cons it rest ih =>
    unfold processItems
    by_cases hc : cfail it <;> simp only [hc, if_true, if_false]
    · by_cases ha : it.attempts < retryAttempts <;>
        simp only [ha, if_true, if_false]
      · constructor
        · intro x hx
          rcases List.mem_cons.mp hx with hx | hx
          · subst hx; simp [bumpAttempts]
          · simp only [List.map_cons, List.mem_cons]
            exact Or.inr (ih.1 x hx)
        · intro x hx
          rcases List.mem_cons.mp hx with hx | hx
          · subst hx; simp [bumpAttempts]
          · simp only [List.map_cons, List.mem_cons]
            exact Or.inr (ih.2 x hx)
      · constructor
        · intro x hx
          simp only [List.map_cons, List.mem_cons]
          exact Or.inr (ih.1 x hx)
        · intro x hx
          rcases List.mem_cons.mp hx with hx | hx
          · subst hx; simp
          · simp only [List.map_cons, List.mem_cons]
            exact Or.inr (ih.2 x hx)
    · cases hmk : mkRemoteOp uid it
      all_goals
        simp only [hmk]
        constructor
        · intro x hx
          simp only [List.map_cons, List.mem_cons]
          exact Or.inr (ih.1 x hx)
        · intro x hx
          rcases List.mem_cons.mp hx with hx | hx
          · subst hx; simp
          · simp only [List.map_cons, List.mem_cons]
            exact Or.inr (ih.2 x hx)

theorem bumpAttempts_id (it : Item) : (bumpAttempts it).id = it.id := rfl

/-! Claim theorems. -/

/-- C2: at most one drain loop is ever active — `processQueue` invoked
while `processing` is set returns the state unchanged (in particular the
queue length is unaffected), and `enqueue` during an active drain only
appends the new item, never starting a second drain. -/
theorem C2_single_active_drain (env : SyncEnv) (fuel : Nat) (s : SyncState)
    (h : s.processing = true) :
    processQueue env fuel s = s ∧
    (processQueue env fuel s).queue.length = s.queue.length ∧
    ∀ operation collection data suppliedId freshId now,
      enqueue env fuel operation collection data suppliedId freshId now s =
        { s with queue :=
            s.queue ++ [mkItem operation collection data suppliedId freshId now] } := by
  refine ⟨by simp [processQueue, h], by simp [processQueue, h], ?_⟩
  intro operation collection data suppliedId freshId now
  simp [enqueue, h]

/-- Witness for C2 at a concrete mid-drain state. -/
theorem C2_witness :
    let s : SyncState := { queue := [], processing := true, committed := [], writes := 0 }
    processQueue happyEnv 5 s = s ∧
    (processQueue happyEnv 5 s).queue.length = s.queue.length ∧
    enqueue happyEnv 5 "update" "invoices" 7 none "fresh" 0 s =
      { s with queue := s.queue ++ [mkItem "update" "invoices" 7 none "fresh" 0] } := by
  refine ⟨?_, ?_, ?_⟩
  · exact (C2_single_active_drain happyEnv 5 _ rfl).1
  · exact (C2_single_active_drain happyEnv 5 _ rfl).2.1
  · exact (C2_single_active_drain happyEnv 5 _ rfl).2.2 "update" "invoices" 7 none "fresh" 0

/-- C3: the item below is enqueued with `attempts = 0` and its `docRef`
construction always throws; the drain retries it three times and then
drops it. The final state shows the item was never committed, and the
code has no reporting channel at all — the drop is silent (empty queue,
empty commit log, no surviving trace), contradicting the required
dropped-with-report escalation. -/
theorem C3_permanent_failure_dropped_silently :
    processQueue badRefEnv 5
        { queue := [{ operation := "create", collection := "bad", data := 0,
                      id := "b1", timestamp := 0, attempts := 0 }],
          processing := false, committed := [], writes := 0 } =
      { queue := [], processing := false, committed := [], writes := 0 } := by
  decide

/-- C4 counterexample: with 51 queued items and no session, the drain
splices the first 50 as a batch and `processBatch` re-queues them with a
tail push (`this.queue.push(...batch)`), so the queue becomes
`item51 ++ batch`, not `batch ++ item51` as the head-requeue claim
states. -/
theorem C4_counterexample :
    (drainLoop noSessionEnv 1 0
        { queue := fiftyOneItems, processing := true, committed := [], writes := 0 }).queue
      = fiftyOneItems.drop 50 ++ fiftyOneItems.take 50 ∧
    fiftyOneItems.drop 50 ++ fiftyOneItems.take 50 ≠
      fiftyOneItems.take 50 ++ fiftyOneItems.drop 50 := by
  decide

/-- C4 (amended): when the session precondition is absent, the entire
batch is pushed back onto the TAIL of the queue with every item unchanged
(no attempts incremented) and no remote call is attempted — the full
state equality shows the commit log and write count untouched. -/
theorem C4_batch_deferred_unchanged (env : SyncEnv) (k : Nat)
    (batch : List Item) (s : SyncState)
    (h : env.firebaseDB = false ∨ env.currentUser = none) :
    processBatch env k batch s = { s with queue := s.queue ++ batch } :=
  processBatch_noSession env k batch s h

/-- Witness for C4 (amended) at a concrete batch. -/
theorem C4_witness :
    let b : Item := { operation := "create", collection := "invoices", data := 100,
                      id := "i1", timestamp := 0, attempts := 2 }
    processBatch noSessionEnv 0 [b] idleState = { idleState with queue := [b] } :=
  C4_batch_deferred_unchanged noSessionEnv 0 _ idleState (Or.inr rfl)

/-- C5: when the atomic commit of a batch rejects, every item of the
batch is re-enqueued at the queue tail with its attempts counter
incremented by one — with no hypothesis on how large `attempts` already
is, i.e. no attempts bound applies to batch-level failures. -/
theorem C5_commit_failure_requeues_all (env : SyncEnv) (k : Nat) (uid : String)
    (batch : List Item) (s : SyncState)
    (hdb : env.firebaseDB = true) (hu : env.currentUser = some uid)
    (hcf : env.commitFail k = true)
    (hb : ∀ it ∈ batch, env.cfail it = false ∧ validOp it)
    (hne : batch ≠ []) :
    processBatch env k batch s =
      { s with queue := s.queue ++ batch.map bumpAttempts } := by
  have hlen : 0 < (batch.map (remoteOpOf uid)).length := by
    simpa using List.length_pos.mpr hne
  simp [processBatch, hdb, hu, processItems_all_ok env.cfail uid _ hb, hcf, hlen]

/-- Witness for C5 with an item whose attempts counter (100) is far past
`retryAttempts`, showing no cap is applied. -/
theorem C5_witness :
    let it : Item := { operation := "delete", collection := "invoices", data := 0,
                       id := "d1", timestamp := 0, attempts := 100 }
    processBatch commitFailEnv 0 [it] idleState =
      { idleState with queue := [bumpAttempts it] } :=
  C5_commit_failure_requeues_all commitFailEnv 0 "u" _ idleState rfl rfl rfl
    (by decide) (by decide)

/-- C6: ids are stable across retries — every item in the queue after
`processBatch` either was already queued, or carries the id of an item of
the processed batch; no re-enqueue path mints a new id. -/
theorem C6_id_stable_across_retries (env : SyncEnv) (k : Nat)
    (batch : List Item) (s : SyncState) (x : Item)
    (hx : x ∈ (processBatch env k batch s).queue) :
    x ∈ s.queue ∨ x.id ∈ batch.map Item.id := by
  unfold processBatch at hx
  cases hdb : env.firebaseDB <;> simp only [hdb] at hx
  · rcases List.mem_append.mp hx with h | h
    · exact Or.inl h
    · exact Or.inr (List.mem_map_of_mem Item.id h)
  · cases hu : env.currentUser <;> simp only [hu] at hx
    · rcases List.mem_append.mp hx with h | h
      · exact Or.inl h
      · exact Or.inr (List.mem_map_of_mem Item.id h)
    · rename_i uid
      have hids := processItems_ids env.cfail uid batch
      by_cases hops : 0 < (processItems env.cfail uid batch).1.length
      · rw [if_pos hops] at hx
        by_cases hcf : env.commitFail k
        · rw [if_pos hcf] at hx
          simp only at hx
          rcases List.mem_append.mp hx with h | h
          · rcases List.mem_append.mp h with h | h
            · exact Or.inl h
            · exact Or.inr (hids.1 x h)
          · rcases List.mem_map.mp h with ⟨y, hy, hxy⟩
            subst hxy
            rw [bumpAttempts_id]
            exact Or.inr (hids.2 y hy)
        · rw [if_neg hcf] at hx
          simp only at hx
          rcases List.mem_append.mp hx with h | h
          · exact Or.inl h
          · exact Or.inr (hids.1 x h)
      · rw [if_neg hops] at hx
        simp only at hx
        rcases List.mem_append.mp hx with h | h
        · exact Or.inl h
        · exact Or.inr (hids.1 x h)

/-- Witness for C6: the deferred-batch path re-queues the batch item with
its original id. -/
theorem C6_witness :
    let b : Item := { operation := "create", collection := "invoices", data := 100,
                      id := "keep-me", timestamp := 0, attempts := 0 }
    b ∈ ({ queue := [], processing := true, committed := [], writes := 0 } : SyncState).queue ∨
      b.id ∈ ([b].map Item.id) := by
  intro b
  exact C6_id_stable_across_retries noSessionEnv 0 [b]
    { queue := [], processing := true, committed := [], writes := 0 } b (by decide)

/-- C10: in every snapshot returned by `getStatus`, the `pending` field
equals the `queueLength` field — both are read off `this.queue.length`. -/
theorem C10_pending_eq_queueLength (s : SyncState) :
    (getStatus s).pending = (getStatus s).queueLength := rfl

/-! The drain loop on a failure-free adapter (for C1). -/

theorem drainLoop_success (env : SyncEnv) (uid : String)
    (hdb : env.firebaseDB = true) (hu : env.currentUser = some uid)
    (hcf : ∀ k, env.commitFail k = false) :
    ∀ fuel k (s : SyncState),
      (∀ it ∈ s.queue, env.cfail it = false ∧ validOp it) →
      s.queue.length ≤ fuel →
      drainLoop env fuel k s =
        { queue := [], processing := s.processing,
          committed := s.committed ++ s.queue.map (remoteOpOf uid),
          writes := s.writes + s.queue.length } := by
  intro fuel
  induction fuel with
  | zero =>
    intro k s hq hlen
    have hnil : s.queue = [] := List.eq_nil_of_length_eq_zero (Nat.le_zero.mp hlen)
    cases s
    simp_all [drainLoop]
  | succ n ih =>
    intro k s hq hlen
    by_cases hnil : s.queue = []
    · cases s
      simp_all [drainLoop]
    · rw [drainLoop, if_neg hnil]
      simp only []
      rw [processBatch_success env k uid _ _ hdb hu (hcf k)
          (fun it hit => hq it (List.mem_of_mem_take hit))]
      have hpos : 0 < s.queue.length := List.length_pos.mpr hnil
      have hbs : batchSize = 50 := rfl
      rw [ih (k + 1) _ (fun it hit => hq it (List.mem_of_mem_drop hit))
          (by simp only [List.length_drop]; omega)]
      simp only [List.map_drop]
      congr 1
      · rw [List.map_take, List.append_assoc, List.take_append_drop]
      · simp only [List.length_take, List.length_drop]
        omega

/-- C1: enqueueing N items (each with operation create, update or delete)
and draining with a never-failing adapter commits exactly the N remote
operations of those items, in order, each exactly once, and ends with an
empty idle queue. The commit log equals the item list mapped to its
remote operations, so there are no duplicates and no omissions, and its
length is N. -/
theorem C1_drain_commits_each_item_once (env : SyncEnv) (uid : String)
    (items : List Item) (fuel : Nat)
    (hdb : env.firebaseDB = true) (hu : env.currentUser = some uid)
    (hcf : ∀ k, env.commitFail k = false)
    (hitems : ∀ it ∈ items, env.cfail it = false ∧ validOp it)
    (hfuel : items.length ≤ fuel) :
    processQueue env fuel
        { queue := items, processing := false, committed := [], writes := 0 } =
      { queue := [], processing := false,
        committed := items.map (remoteOpOf uid), writes := items.length } ∧
    (processQueue env fuel
        { queue := items, processing := false, committed := [], writes := 0 }).committed.length
      = items.length := by
  have hmain : processQueue env fuel
      { queue := items, processing := false, committed := [], writes := 0 } =
      { queue := [], processing := false,
        committed := items.map (remoteOpOf uid), writes := items.length } := by
    by_cases hnil : items = []
    · subst hnil
      simp [processQueue]
    · rw [processQueue, if_neg (by simp [hnil])]
      rw [drainLoop_success env uid hdb hu hcf fuel 0 _ hitems hfuel]
      simp
  exact ⟨hmain, by rw [hmain]; simp⟩

/-- Witness for C1: three items, a never-failing adapter, fuel 3. -/
theorem C1_witness :
    processQueue happyEnv 3
        { queue := threeItems, processing := false, committed := [], writes := 0 } =
      { queue := [], processing := false,
        committed := threeItems.map (remoteOpOf "u"), writes := threeItems.length } ∧
    (processQueue happyEnv 3
        { queue := threeItems, processing := false, committed := [], writes := 0 }).committed.length
      = threeItems.length :=
  C1_drain_commits_each_item_once happyEnv "u" threeItems 3 rfl rfl (fun _ => rfl)
    (by decide) (by decide)

/-! Tracker lemmas: field preservation across the helper functions. -/

theorem stats_saveFirestoreStats (w : TrackerWorld) :
    (saveFirestoreStats w).stats = w.stats := rfl

theorem stats_updateFirestoreChart (now : Nat) (w : TrackerWorld) :
    (updateFirestoreChart now w).stats = w.stats := by
  rcases w with ⟨st, sv, ch⟩
  cases ch <;> rfl

theorem stats_updateFirestoreDisplay (now : Nat) (w : TrackerWorld) :
    (updateFirestoreDisplay now w).stats = w.stats := by
  unfold updateFirestoreDisplay
  split
  · exact stats_updateFirestoreChart now w
  · rfl

theorem stats_clearChartData (w : TrackerWorld) :
    (clearChartData w).stats = w.stats := by
  rcases w with ⟨st, sv, ch⟩
  cases ch <;> rfl

theorem saved_updateFirestoreChart (now : Nat) (w : TrackerWorld) :
    (updateFirestoreChart now w).saved = w.saved := by
  rcases w with ⟨st, sv, ch⟩
  cases ch <;> rfl

theorem saved_updateFirestoreDisplay (now : Nat) (w : TrackerWorld) :
    (updateFirestoreDisplay now w).saved = w.saved := by
  unfold updateFirestoreDisplay
  split
  · exact saved_updateFirestoreChart now w
  · rfl

theorem checkReset_stats_of_elapsed (now : Nat) (w : TrackerWorld)
    (h : 24 * hourMs ≤ now - w.stats.lastReset) :
    (checkAndAutoResetFirestoreStats now w).stats =
      { reads := 0, writes := 0, history := [], lastReset := now } := by
  unfold checkAndAutoResetFirestoreStats
  rw [if_pos h, stats_clearChartData, stats_updateFirestoreDisplay,
    stats_saveFirestoreStats]

theorem checkReset_of_not_elapsed (now : Nat) (w : TrackerWorld)
    (h : now - w.stats.lastReset < 24 * hourMs) :
    checkAndAutoResetFirestoreStats now w = w := by
  unfold checkAndAutoResetFirestoreStats
  rw [if_neg (by omega)]

theorem trackWrite_increments (now : Nat) (w : TrackerWorld)
    (h : now - w.stats.lastReset < 24 * hourMs) :
    (trackFirestoreWrite now 1 w).stats.writes = w.stats.writes + 1 := by
  unfold trackFirestoreWrite
  rw [stats_updateFirestoreDisplay, stats_saveFirestoreStats,
    checkReset_of_not_elapsed now w h]

/-- C7: whenever 24 wall-clock hours have elapsed since `lastReset`, a
record call first resets reads, writes and history and stamps
`lastReset := now`, and only then applies its increment — so the
post-state counters show exactly the new increment and nothing older. -/
theorem C7_auto_reset_before_increment (w : TrackerWorld) (now n : Nat)
    (h : w.stats.lastReset + 24 * hourMs ≤ now) :
    (trackFirestoreRead now n w).stats =
      { reads := n, writes := 0, history := [], lastReset := now } ∧
    (trackFirestoreWrite now n w).stats =
      { reads := 0, writes := n, history := [], lastReset := now } := by
  have hc : 24 * hourMs ≤ now - w.stats.lastReset := by omega
  constructor
  · unfold trackFirestoreRead
    rw [stats_updateFirestoreDisplay, stats_saveFirestoreStats]
    simp [checkReset_stats_of_elapsed now w hc]
  · unfold trackFirestoreWrite
    rw [stats_updateFirestoreDisplay, stats_saveFirestoreStats]
    simp [checkReset_stats_of_elapsed now w hc]

/-- Witness for C7: record 3 reads and 5 writes at time 0, advance to 25
hours, record 1 read — the counters come out as reads = 1, writes = 0. -/
theorem C7_witness :
    c7world.stats.lastReset + 24 * hourMs ≤ 25 * hourMs ∧
    (trackFirestoreRead (25 * hourMs) 1 c7world).stats =
      { reads := 1, writes := 0, history := [], lastReset := 25 * hourMs } := by
  refine ⟨by decide, ?_⟩
  exact (C7_auto_reset_before_increment c7world (25 * hourMs) 1 (by decide)).1

/-- C8: `immediateSync` with no active session rejects with the session
error and returns the state untouched (queue intact, no remote write, no
tracked usage); with an active session and a create/update/delete
operation it performs exactly one direct remote operation and on success
increments the tracked write count by one. -/
theorem C8_syncNow_session_gate (fdb : Bool) (cu : Option String)
    (commitOk : Bool) (now : Nat) (collection : String) (data : Nat)
    (dataId : Option String) (freshId : String) (operation : String)
    (s : ImmState) :
    ((fdb = false ∨ cu = none) →
      immediateSync fdb cu commitOk now collection data dataId freshId operation s =
        (Except.error SyncError.sessionError, s)) ∧
    (∀ uid, fdb = true → cu = some uid →
      (operation = "create" ∨ operation = "update" ∨ operation = "delete") →
      commitOk = true → now - s.tracker.stats.lastReset < 24 * hourMs →
      ((immediateSync fdb cu commitOk now collection data dataId freshId operation s).1
          = Except.ok true ∧
       (immediateSync fdb cu commitOk now collection data dataId freshId operation s).2.queue
          = s.queue ∧
       (immediateSync fdb cu commitOk now collection data dataId freshId operation s).2.remote.length
          = s.remote.length + 1 ∧
       (immediateSync fdb cu commitOk now collection data dataId freshId operation s).2.tracker.stats.writes
          = s.tracker.stats.writes + 1)) := by
  constructor
  · rintro (h | h)
    · subst h; cases cu <;> rfl
    · subst h; cases fdb <;> rfl
  · intro uid hfdb hcu hop hok hts
    subst hfdb; subst hcu; subst hok
    rcases hop with hop | hop | hop <;> subst hop <;>
      exact ⟨rfl, rfl, by simp [immediateSync], by
        show (trackFirestoreWrite now 1 s.tracker).stats.writes =
          s.tracker.stats.writes + 1
        exact trackWrite_increments now s.tracker hts⟩

/-- Witness for C8: the session-less call rejects leaving the state
intact; the in-session delete performs one remote operation and bumps
the write counter. -/
theorem C8_witness :
    immediateSync false none true 0 "invoices" 50 none "f" "delete" imm0 =
      (Except.error SyncError.sessionError, imm0) ∧
    ((immediateSync true (some "u") true 0 "invoices" 50 none "f" "delete" imm0).1
        = Except.ok true ∧
     (immediateSync true (some "u") true 0 "invoices" 50 none "f" "delete" imm0).2.queue
        = imm0.queue ∧
     (immediateSync true (some "u") true 0 "invoices" 50 none "f" "delete" imm0).2.remote.length
        = imm0.remote.length + 1 ∧
     (immediateSync true (some "u") true 0 "invoices" 50 none "f" "delete" imm0).2.tracker.stats.writes
        = imm0.tracker.stats.writes + 1) :=
  ⟨(C8_syncNow_session_gate false none true 0 "invoices" 50 none "f" "delete" imm0).1
      (Or.inl rfl),
   (C8_syncNow_session_gate true (some "u") true 0 "invoices" 50 none "f" "delete" imm0).2
      "u" rfl rfl (Or.inr (Or.inr rfl)) rfl (by decide)⟩

/-! Chart boundedness (for C9). -/

theorem chartDataOk_updateFirestoreChart (now : Nat) (w : TrackerWorld)
    (h : chartWellFormed w) : chartWellFormed (updateFirestoreChart now w) := by
  rcases w with ⟨st, sv, ch⟩
  cases ch with
  | none => exact h
  | some c =>
    simp only [chartWellFormed, chartDataOk, updateFirestoreChart] at h ⊢
    rcases h with ⟨h1, h2, h3⟩
    by_cases hgt : 10 < (c.labels ++ [now]).length
    · rw [if_pos hgt]
      simp only [List.length_append, List.length_drop, List.length_cons,
        List.length_nil] at *
      omega
    · rw [if_neg hgt]
      simp only [List.length_append, List.length_cons, List.length_nil] at *
      omega

theorem chartWellFormed_updateFirestoreDisplay (now : Nat) (w : TrackerWorld)
    (h : chartWellFormed w) : chartWellFormed (updateFirestoreDisplay now w) := by
  unfold updateFirestoreDisplay
  split
  · exact chartDataOk_updateFirestoreChart now w h
  · exact h

theorem chartWellFormed_clearChartData (w : TrackerWorld) :
    chartWellFormed (clearChartData w) := by
  rcases w with ⟨st, sv, ch⟩
  cases ch <;> simp [clearChartData, chartWellFormed, chartDataOk]

theorem chartWellFormed_checkReset (now : Nat) (w : TrackerWorld)
    (h : chartWellFormed w) :
    chartWellFormed (checkAndAutoResetFirestoreStats now w) := by
  unfold checkAndAutoResetFirestoreStats
  split
  · exact chartWellFormed_clearChartData _
  · exact h

theorem history_checkReset (now : Nat) (w : TrackerWorld)
    (h : w.stats.history = []) :
    (checkAndAutoResetFirestoreStats now w).stats.history = [] := by
  unfold checkAndAutoResetFirestoreStats
  split
  · rw [stats_clearChartData, stats_updateFirestoreDisplay,
      stats_saveFirestoreStats]
  · exact h

theorem chartLen_clearChartData (w : TrackerWorld) :
    chartLen (clearChartData w) = 0 := by
  rcases w with ⟨st, sv, ch⟩
  cases ch <;> simp [clearChartData, chartLen]

theorem chartLen_updateFirestoreChart (now : Nat) (w : TrackerWorld) :
    chartLen (updateFirestoreChart now w) ≤ chartLen w + 1 := by
  rcases w with ⟨st, sv, ch⟩
  cases ch with
  | none => simp [updateFirestoreChart, chartLen]
  | some c =>
    simp only [updateFirestoreChart, chartLen]
    split <;>
      simp only [List.length_append, List.length_drop, List.length_cons,
        List.length_nil] <;> omega

theorem chartLen_updateFirestoreDisplay (now : Nat) (w : TrackerWorld) :
    chartLen (updateFirestoreDisplay now w) ≤ chartLen w + 1 := by
  unfold updateFirestoreDisplay
  split
  · exact chartLen_updateFirestoreChart now w
  · exact Nat.le_succ _

theorem chartLen_checkReset (now : Nat) (w : TrackerWorld) :
    chartLen (checkAndAutoResetFirestoreStats now w) ≤ chartLen w := by
  unfold checkAndAutoResetFirestoreStats
  split
  · rw [chartLen_clearChartData]
    exact Nat.zero_le _
  · exact Nat.le_refl _

/-- C9 counterexample: starting from a zeroed tracker with an initialized
chart, ten read operations are recorded; the persisted stats record is
exactly the current stats with an EMPTY `history` field, while the sole
rolling sample `(t = 0, reads = 10, writes = 0)` lives only in the
(unpersisted) chart — so the persisted history does not contain the
recorded samples, refuting the claim at this input. -/
theorem C9_counterexample :
    c9afterTen.stats.reads + c9afterTen.stats.writes = 10 ∧
    c9afterTen.saved =
      some { reads := 10, writes := 0, history := [], lastReset := 0 } ∧
    c9afterTen.stats.history = [] ∧
    c9afterTen.chart =
      some { labels := [0], readsData := [10], writesData := [0] } := by
  decide

/-- C9 (amended): the bounded rolling history of at most the last 10
(timestamp, reads, writes) samples, appended at most once per record call
(only when the operation total is a multiple of 10), lives in the display
chart; the persisted stats record keeps the `\x7breads, writes, history,
lastReset\x7d` layout but its `history` field is never appended to and
remains empty. Each record call preserves: the chart holds at most 10
aligned samples and grew by at most one, the in-memory `history` stays
empty, and the persisted record equals the current stats (hence its
history is empty too). -/
theorem C9_rolling_history_in_chart_only (w : TrackerWorld) (now n : Nat)
    (hw : chartWellFormed w) (hh : w.stats.history = []) :
    (chartWellFormed (trackFirestoreRead now n w) ∧
     (trackFirestoreRead now n w).stats.history = [] ∧
     (trackFirestoreRead now n w).saved = some (trackFirestoreRead now n w).stats ∧
     chartLen (trackFirestoreRead now n w) ≤ chartLen w + 1) ∧
    (chartWellFormed (trackFirestoreWrite now n w) ∧
     (trackFirestoreWrite now n w).stats.history = [] ∧
     (trackFirestoreWrite now n w).saved = some (trackFirestoreWrite now n w).stats ∧
     chartLen (trackFirestoreWrite now n w) ≤ chartLen w + 1) := by
  constructor
  · refine ⟨?_, ?_, ?_, ?_⟩
    · exact chartWellFormed_updateFirestoreDisplay _ _
        (chartWellFormed_checkReset now w hw)
    · unfold trackFirestoreRead
      rw [stats_updateFirestoreDisplay, stats_saveFirestoreStats]
      exact history_checkReset now w hh
    · unfold trackFirestoreRead
      rw [saved_updateFirestoreDisplay, stats_updateFirestoreDisplay,
        stats_saveFirestoreStats]
      rfl
    · calc chartLen (trackFirestoreRead now n w)
          ≤ chartLen (checkAndAutoResetFirestoreStats now w) + 1 :=
            chartLen_updateFirestoreDisplay _ _
        _ ≤ chartLen w + 1 :=
            Nat.add_le_add_right (chartLen_checkReset now w) 1
  · refine ⟨?_, ?_, ?_, ?_⟩
    · exact chartWellFormed_updateFirestoreDisplay _ _
        (chartWellFormed_checkReset now w hw)
    · unfold trackFirestoreWrite
      rw [stats_updateFirestoreDisplay, stats_saveFirestoreStats]
      exact history_checkReset now w hh
    · unfold trackFirestoreWrite
      rw [saved_updateFirestoreDisplay, stats_updateFirestoreDisplay,
        stats_saveFirestoreStats]
      rfl
    · calc chartLen (trackFirestoreWrite now n w)
          ≤ chartLen (checkAndAutoResetFirestoreStats now w) + 1 :=
            chartLen_updateFirestoreDisplay _ _
        _ ≤ chartLen w + 1 :=
            Nat.add_le_add_right (chartLen_checkReset now w) 1

/-- Witness for C9 (amended) at a concrete initialized tracker. -/
theorem C9_witness :
    (chartWellFormed (trackFirestoreRead 5 2 chartWorld0) ∧
     (trackFirestoreRead 5 2 chartWorld0).stats.history = [] ∧
     (trackFirestoreRead 5 2 chartWorld0).saved =
        some (trackFirestoreRead 5 2 chartWorld0).stats ∧
     chartLen (trackFirestoreRead 5 2 chartWorld0) ≤ chartLen chartWorld0 + 1) ∧
    (chartWellFormed (trackFirestoreWrite 5 2 chartWorld0) ∧
     (trackFirestoreWrite 5 2 chartWorld0).stats.history = [] ∧
     (trackFirestoreWrite 5 2 chartWorld0).saved =
        some (trackFirestoreWrite 5 2 chartWorld0).stats ∧
     chartLen (trackFirestoreWrite 5 2 chartWorld0) ≤ chartLen chartWorld0 + 1) :=
  C9_rolling_history_in_chart_only chartWorld0 5 2 (by decide) rfl

end SyncCore
